import Mathlib

/-!
Verification of the transaction-executor orchestrator
(`miden-tx/src/executor/mod.rs`).

The executor itself is embedded directly from the source.  Its external
collaborators (the data store, the transaction compiler, the VM processor
and the recording advice provider) are visible in the source only at their
call boundary; they are modelled as records of functions, with the
compiler's cache made explicit as an association list, following the
boundary contracts stated in the specification.
-/

namespace MidenTx

/-- Opaque account identifier. -/
abbrev AccountId := Nat

/-- Opaque cryptographic digest. -/
abbrev Digest := Nat

/-- Reference locating a note to be consumed. -/
abbrev NoteOrigin := Nat

/-- Source form of an account's code, as supplied by the data store. -/
abbrev ModuleAst := Nat

/-- Source AST of a (note or transaction) script. -/
abbrev ProgramAst := Nat

/-- Executable VM program produced by the compiler. -/
abbrev Program := Nat

/-- Compiled, target-checked note script. -/
abbrev NoteScript := Nat

/-- An account interface a note script is checked against. -/
abbrev NoteTarget := List Digest

/-- View of the block chain fetched together with the transaction data. -/
abbrev BlockChain := Nat

/-- Advice inputs derived from a prepared transaction. -/
abbrev AdviceInputs := Nat

/-- Stack inputs derived from a prepared transaction. -/
abbrev StackInputs := Nat

/-- Direct result of a successful VM execution. -/
abbrev ExecutionResult := Nat

/-- State of the recording advice provider. -/
abbrev RecAdviceProvider := Nat

/-- Immutable proof extracted from a finalized advice recorder. -/
abbrev AdviceProof := Nat

/-- Opaque error produced by the data store. -/
abbrev DataStoreError := Nat

/-- Opaque error produced by the transaction compiler. -/
abbrev CompilerError := Nat

/-- Opaque error produced by the VM processor. -/
abbrev ExecutionError := Nat

/-- Account state fetched from the data store; the executor reads its id
and its (pre-execution) hash. -/
structure Account where
  id : AccountId
  hash : Digest
deriving DecidableEq, Repr

/-- Block header fetched from the data store; the executor reads its hash. -/
structure BlockHeader where
  hash : Digest
deriving DecidableEq, Repr

/-- The resolved consumed notes; the executor reads their commitment. -/
structure ConsumedNotes where
  commitment : Digest
deriving DecidableEq, Repr

/-- Compiled representation of an account's exposed procedures. -/
structure AccountCode where
  procedures : List Digest
deriving DecidableEq, Repr

/-- Error taxonomy of the executor, one discriminant per failure origin
(from `TransactionExecutorError` as used in the source). -/
inductive TransactionExecutorError where
  | FetchAccountCodeFailed (e : DataStoreError)
  | LoadAccountFailed (e : CompilerError)
  | CompileNoteScriptFailed (e : CompilerError)
  | FetchTransactionDataFailed (e : DataStoreError)
  | CompileTransactionError (e : CompilerError)
  | ExecuteTransactionProgramFailed (e : ExecutionError)
deriving DecidableEq, Repr

/-- The data store boundary: `get_account_code` and `get_transaction_data`,
deterministic functions per the boundary contract. -/
structure DataStore where
  get_account_code : AccountId → Except DataStoreError ModuleAst
  get_transaction_data :
    AccountId → Nat → List NoteOrigin →
      Except DataStoreError (Account × BlockHeader × BlockChain × ConsumedNotes)

/-- Pure compilation functions of the transaction compiler, each a function
of its explicit arguments and of the compiler's registered interface cache. -/
structure CompilerBackend where
  compile_module : ModuleAst → Except CompilerError AccountCode
  note_script_compiler :
    ProgramAst → List NoteTarget → List (AccountId × List Digest) →
      Except CompilerError NoteScript
  tx_compiler :
    AccountId → ConsumedNotes → Option ProgramAst →
      List (AccountId × List Digest) → Except CompilerError (Program × Digest)

/-- The transaction compiler (name kept from the source): pure backend plus
the per-account interface cache, keyed by account id. -/
structure TransactionComplier where
  backend : CompilerBackend
  account_procs : List (AccountId × List Digest)

/-- Overwriting insertion into the compiler's interface cache. -/
def insertInterface :
    List (AccountId × List Digest) → AccountId → List Digest →
      List (AccountId × List Digest)
  | [], k, v => [(k, v)]
  | (k', v') :: rest, k, v =>
    if k' = k then (k, v) :: rest else (k', v') :: insertInterface rest k v

/-- Lookup in the compiler's interface cache. -/
def lookupInterface :
    List (AccountId × List Digest) → AccountId → Option (List Digest)
  | [], _ => none
  | (k', v') :: rest, k => if k' = k then some v' else lookupInterface rest k

/-- Modelled from the spec: the compiler's `load_account` (its body is not
under `src/`). Compiles the fetched account code and, on success, registers
the resulting interface in the per-account cache, overwriting any previous
entry for that id; compilation is pure, so failure leaves the cache
unchanged. -/
def TransactionComplier.load_account (c : TransactionComplier)
    (account_id : AccountId) (account_code : ModuleAst) :
    Except CompilerError (AccountCode × TransactionComplier) :=
  match c.backend.compile_module account_code with
  | .error e => .error e
  | .ok ac =>
    .ok (ac, ⟨c.backend, insertInterface c.account_procs account_id ac.procedures⟩)

/-- Modelled from the spec: the compiler's `load_account_interface` (its
body is not under `src/`). Registers the given procedure-digest set as the
account's interface, overwriting any previous registration, and returns the
previously registered set when one existed. -/
def TransactionComplier.load_account_interface (c : TransactionComplier)
    (account_id : AccountId) (procedures : List Digest) :
    Option (List Digest) × TransactionComplier :=
  (lookupInterface c.account_procs account_id,
   ⟨c.backend, insertInterface c.account_procs account_id procedures⟩)

/-- Modelled from the spec: the compiler's `compile_note_script` (its body
is not under `src/`). Pure given the registered interface cache and its
arguments. -/
def TransactionComplier.compile_note_script (c : TransactionComplier)
    (note_script_ast : ProgramAst) (target_account_procs : List NoteTarget) :
    Except CompilerError NoteScript :=
  c.backend.note_script_compiler note_script_ast target_account_procs c.account_procs

/-- Modelled from the spec: the compiler's `compile_transaction` (its body
is not under `src/`). Pure given the registered interface cache; yields the
executable program and the transaction-script root digest. -/
def TransactionComplier.compile_transaction (c : TransactionComplier)
    (account_id : AccountId) (notes : ConsumedNotes)
    (tx_script : Option ProgramAst) : Except CompilerError (Program × Digest) :=
  c.backend.tx_compiler account_id notes tx_script c.account_procs

/-- Immutable bundle of resolved inputs, built by `prepare_transaction`
with the constructor-argument order of the source. -/
structure PreparedTransaction where
  account : Account
  block_header : BlockHeader
  block_chain : BlockChain
  consumed_notes : ConsumedNotes
  tx_script_root : Digest
  tx_program : Program
deriving DecidableEq, Repr

/-- The terminal witness artifact, with the field order of the
`TransactionWitness::new` call in the source. -/
structure TransactionWitness where
  account_id : AccountId
  account_hash : Digest
  block_hash : Digest
  consumed_notes_commitment : Digest
  tx_script_root : Digest
  program : Program
  advice_proof : AdviceProof
deriving DecidableEq, Repr

/-- Execution-environment boundary: derivation of advice/stack inputs from
a prepared transaction, construction of a fresh recorder from advice inputs
(the `.into()` in the source), the VM `processor::execute` call, and
recorder finalization (`into_proof`). -/
structure ExecEnv where
  advice_provider_inputs : PreparedTransaction → AdviceInputs
  stack_inputs : PreparedTransaction → StackInputs
  rec_from_inputs : AdviceInputs → RecAdviceProvider
  execute :
    Program → StackInputs → RecAdviceProvider →
      Except ExecutionError (ExecutionResult × RecAdviceProvider)
  into_proof : RecAdviceProvider → AdviceProof

/-- The executor: owns the compiler and the data store handle. -/
structure TransactionExecutor where
  compiler : TransactionComplier
  data_store : DataStore

/-- `TransactionExecutor::new`: binds a data store and a fresh compiler
(empty interface cache). -/
def TransactionExecutor.new (b : CompilerBackend) (d : DataStore) :
    TransactionExecutor :=
  ⟨⟨b, []⟩, d⟩

/-- `TransactionExecutor::load_account`, from the source: fetch the account
code from the data store (`FetchAccountCodeFailed` on error), then load it
into the compiler (`LoadAccountFailed` on error).  State passing is
explicit: the second component is the executor after the call. -/
def TransactionExecutor.load_account (ex : TransactionExecutor)
    (account_id : AccountId) :
    Except TransactionExecutorError AccountCode × TransactionExecutor :=
  match ex.data_store.get_account_code account_id with
  | .error e => (.error (.FetchAccountCodeFailed e), ex)
  | .ok account_code =>
    match ex.compiler.load_account account_id account_code with
    | .error e => (.error (.LoadAccountFailed e), ex)
    | .ok (ac, c') => (.ok ac, ⟨c', ex.data_store⟩)

/-- `TransactionExecutor::load_account_interface`, from the source: forward
to the compiler, returning the previous interface when one existed. -/
def TransactionExecutor.load_account_interface (ex : TransactionExecutor)
    (account_id : AccountId) (procedures : List Digest) :
    Option (List Digest) × TransactionExecutor :=
  match ex.compiler.load_account_interface account_id procedures with
  | (previous, c') => (previous, ⟨c', ex.data_store⟩)

/-- `TransactionExecutor::compile_note_script`, from the source: forward to
the compiler, wrapping failures in `CompileNoteScriptFailed`. -/
def TransactionExecutor.compile_note_script (ex : TransactionExecutor)
    (note_script_ast : ProgramAst) (target_account_procs : List NoteTarget) :
    Except TransactionExecutorError NoteScript × TransactionExecutor :=
  match ex.compiler.compile_note_script note_script_ast target_account_procs with
  | .error e => (.error (.CompileNoteScriptFailed e), ex)
  | .ok ns => (.ok ns, ex)

/-- `TransactionExecutor::prepare_transaction`, from the source: fetch the
transaction data (`FetchTransactionDataFailed` on error), compile the
transaction (`CompileTransactionError` on error), and assemble the
`PreparedTransaction` in the source's constructor order. -/
def TransactionExecutor.prepare_transaction (ex : TransactionExecutor)
    (account_id : AccountId) (block_ref : Nat)
    (note_origins : List NoteOrigin) (tx_script : Option ProgramAst) :
    Except TransactionExecutorError PreparedTransaction × TransactionExecutor :=
  match ex.data_store.get_transaction_data account_id block_ref note_origins with
  | .error e => (.error (.FetchTransactionDataFailed e), ex)
  | .ok (account, block_header, block_chain, notes) =>
    match ex.compiler.compile_transaction account_id notes tx_script with
    | .error e => (.error (.CompileTransactionError e), ex)
    | .ok (tx_program, tx_script_root) =>
      (.ok ⟨account, block_header, block_chain, notes, tx_script_root, tx_program⟩, ex)

/-- `TransactionExecutor::execute_transaction`, from the source: prepare
the transaction (propagating its error unchanged), build a fresh advice
recorder from the prepared transaction's advice inputs, run the VM
(`ExecuteTransactionProgramFailed` on error, discarding the direct result
on success), finalize the recorder into a proof, and assemble the witness
in the source's field order. -/
def TransactionExecutor.execute_transaction (env : ExecEnv)
    (ex : TransactionExecutor) (account_id : AccountId) (block_ref : Nat)
    (note_origins : List NoteOrigin) (tx_script : Option ProgramAst) :
    Except TransactionExecutorError TransactionWitness × TransactionExecutor :=
  match ex.prepare_transaction account_id block_ref note_origins tx_script with
  | (.error e, ex') => (.error e, ex')
  | (.ok transaction, ex') =>
    let advice_recorder := env.rec_from_inputs (env.advice_provider_inputs transaction)
    match env.execute transaction.tx_program (env.stack_inputs transaction) advice_recorder with
    | .error e => (.error (.ExecuteTransactionProgramFailed e), ex')
    | .ok (_result, advice_recorder') =>
      let advice_proof := env.into_proof advice_recorder'
      (.ok ⟨transaction.account.id, transaction.account.hash,
            transaction.block_header.hash, transaction.consumed_notes.commitment,
            transaction.tx_script_root, transaction.tx_program, advice_proof⟩, ex')

/-- Observable events of one `execute_transaction` call, used to state the
staging discipline: data fetch, transaction compilation, fresh-recorder
construction (carrying the advice inputs it is built from), the VM call
(carrying the program it runs), and proof finalization. -/
inductive Event where
  | fetchData (account_id : AccountId) (block_ref : Nat) (note_origins : List NoteOrigin)
  | compileTx (account_id : AccountId)
  | mkRecorder (inputs : AdviceInputs)
  | vmExecute (program : Program)
  | finalizeProof
deriving DecidableEq, Repr

/-- Instrumented copy of `execute_transaction` (with `prepare_transaction`
inlined) that also returns the list of stage events, in order.  The theorem
for claim C5 proves that its result agrees with `execute_transaction` and
that its trace is exactly the staged sequence cut at the first failure. -/
def TransactionExecutor.execute_transaction_trace (env : ExecEnv)
    (ex : TransactionExecutor) (account_id : AccountId) (block_ref : Nat)
    (note_origins : List NoteOrigin) (tx_script : Option ProgramAst) :
    (Except TransactionExecutorError TransactionWitness × TransactionExecutor)
      × List Event :=
  match ex.data_store.get_transaction_data account_id block_ref note_origins with
  | .error e =>
    ((.error (.FetchTransactionDataFailed e), ex),
     [.fetchData account_id block_ref note_origins])
  | .ok (account, block_header, block_chain, notes) =>
    match ex.compiler.compile_transaction account_id notes tx_script with
    | .error e =>
      ((.error (.CompileTransactionError e), ex),
       [.fetchData account_id block_ref note_origins, .compileTx account_id])
    | .ok (tx_program, tx_script_root) =>
      let transaction : PreparedTransaction :=
        ⟨account, block_header, block_chain, notes, tx_script_root, tx_program⟩
      let inputs := env.advice_provider_inputs transaction
      let advice_recorder := env.rec_from_inputs inputs
      match env.execute tx_program (env.stack_inputs transaction) advice_recorder with
      | .error e =>
        ((.error (.ExecuteTransactionProgramFailed e), ex),
         [.fetchData account_id block_ref note_origins, .compileTx account_id,
          .mkRecorder inputs, .vmExecute tx_program])
      | .ok (_result, advice_recorder') =>
        ((.ok ⟨transaction.account.id, transaction.account.hash,
               transaction.block_header.hash, transaction.consumed_notes.commitment,
               transaction.tx_script_root, transaction.tx_program,
               env.into_proof advice_recorder'⟩, ex),
         [.fetchData account_id block_ref note_origins, .compileTx account_id,
          .mkRecorder inputs, .vmExecute tx_program, .finalizeProof])

/-- Fixture data store that succeeds, returning an account whose id matches
the requested one. -/
def dsOk : DataStore :=
  ⟨fun _ => .ok 0, fun a _ _ => .ok (⟨a, 7⟩, ⟨11⟩, 3, ⟨13⟩)⟩

/-- Fixture data store that succeeds but returns an account whose id
differs from the requested one. -/
def dsShifted : DataStore :=
  ⟨fun _ => .ok 0, fun a _ _ => .ok (⟨a + 1, 7⟩, ⟨11⟩, 3, ⟨13⟩)⟩

/-- Fixture data store whose two operations always fail. -/
def dsFail : DataStore :=
  ⟨fun _ => .error 9, fun _ _ _ => .error 8⟩

/-- Fixture compiler backend that always succeeds. -/
def backendOk : CompilerBackend :=
  ⟨fun m => .ok ⟨[m, m + 1]⟩, fun _ _ _ => .ok 21, fun _ _ _ _ => .ok (42, 5)⟩

/-- Fixture compiler backend that always fails. -/
def backendFail : CompilerBackend :=
  ⟨fun _ => .error 3, fun _ _ _ => .error 4, fun _ _ _ _ => .error 6⟩

/-- Fixture executor with succeeding store and compiler. -/
def exOk : TransactionExecutor := .new backendOk dsOk

/-- Fixture executor whose store returns a mismatching account id. -/
def exShifted : TransactionExecutor := .new backendOk dsShifted

/-- Fixture executor whose store fails. -/
def exFetchFail : TransactionExecutor := .new backendOk dsFail

/-- Fixture executor whose compiler fails. -/
def exCompileFail : TransactionExecutor := .new backendFail dsOk

/-- Fixture executor sharing the compiler of `exOk` but with a different
(failing) data store. -/
def exOkAltStore : TransactionExecutor := ⟨exOk.compiler, dsFail⟩

/-- Fixture execution environment whose VM call succeeds with direct
result 0. -/
def envOk : ExecEnv :=
  ⟨fun t => t.tx_program, fun _ => 0, fun i => i,
   fun _ _ ar => .ok (0, ar + 1), fun ar => ar * 2⟩

/-- Fixture execution environment identical to `envOk` except that the
VM call's direct result is 1 instead of 0. -/
def envOk2 : ExecEnv :=
  ⟨fun t => t.tx_program, fun _ => 0, fun i => i,
   fun _ _ ar => .ok (1, ar + 1), fun ar => ar * 2⟩

/-- Fixture execution environment whose VM call always faults. -/
def envFail : ExecEnv :=
  ⟨fun t => t.tx_program, fun _ => 0, fun i => i,
   fun _ _ _ => .error 17, fun ar => ar * 2⟩

/-!
Cache lemmas.
-/

/-- Lookup after an overwriting insertion finds the inserted value. -/
theorem lookupInterface_insertInterface
    (m : List (AccountId × List Digest)) (k : AccountId) (v : List Digest) :
    lookupInterface (insertInterface m k v) k = some v := by
  induction m with
  | nil => simp [insertInterface, lookupInterface]
  | cons hd tl ih =>
    obtain ⟨k', v'⟩ := hd
    by_cases h : k' = k <;> simp [insertInterface, lookupInterface, h, ih]

/-- Re-inserting the same binding leaves the cache unchanged. -/
theorem insertInterface_insertInterface
    (m : List (AccountId × List Digest)) (k : AccountId) (v : List Digest) :
    insertInterface (insertInterface m k v) k v = insertInterface m k v := by
  induction m with
  | nil => simp [insertInterface]
  | cons hd tl ih =>
    obtain ⟨k', v'⟩ := hd
    by_cases h : k' = k <;> simp [insertInterface, h, ih]

/-!
Claim theorems.
-/

/-- Helper: stage-tagging of errors at the `prepare_transaction` level: a
`get_transaction_data` failure yields `FetchTransactionDataFailed` wrapping
the store's error, a `compile_transaction` failure yields
`CompileTransactionError` wrapping the compiler's error, and every error
returned by `prepare_transaction` carries the discriminant of its origin. -/
theorem prepare_transaction_error_tagging
    (ex : TransactionExecutor) (a : AccountId) (b : Nat)
    (n : List NoteOrigin) (s : Option ProgramAst) :
    (∀ e, ex.data_store.get_transaction_data a b n = .error e →
      ex.prepare_transaction a b n s = (.error (.FetchTransactionDataFailed e), ex))
  ∧ (∀ acct bh bc nt e,
      ex.data_store.get_transaction_data a b n = .ok (acct, bh, bc, nt) →
      ex.compiler.compile_transaction a nt s = .error e →
      ex.prepare_transaction a b n s = (.error (.CompileTransactionError e), ex))
  ∧ (∀ err, (ex.prepare_transaction a b n s).1 = .error err →
      (∃ e, err = .FetchTransactionDataFailed e ∧
        ex.data_store.get_transaction_data a b n = .error e)
      ∨ (∃ e acct bh bc nt,
          err = .CompileTransactionError e ∧
          ex.data_store.get_transaction_data a b n = .ok (acct, bh, bc, nt) ∧
          ex.compiler.compile_transaction a nt s = .error e)) := by
  refine ⟨fun e he => ?_, fun acct bh bc nt e hd hc => ?_, fun err herr => ?_⟩
  · simp [TransactionExecutor.prepare_transaction, he]
  · simp [TransactionExecutor.prepare_transaction, hd, hc]
  · rcases hd : ex.data_store.get_transaction_data a b n with e | ⟨acct, bh, bc, nt⟩
    · left
      simp [TransactionExecutor.prepare_transaction, hd] at herr
      exact ⟨e, herr.symm, rfl⟩
    · right
      rcases hc : ex.compiler.compile_transaction a nt s with e | ⟨p, r⟩
      · simp [TransactionExecutor.prepare_transaction, hd, hc] at herr
        exact ⟨e, acct, bh, bc, nt, herr.symm, rfl, hc⟩
      · simp [TransactionExecutor.prepare_transaction, hd, hc] at herr

/-- Claim C3: at the `execute_transaction` boundary, a preparation failure
propagates unchanged and tagged with its originating stage: a
`get_transaction_data` failure makes `execute_transaction` return
`FetchTransactionDataFailed` wrapping the store's error, a
`compile_transaction` failure makes it return `CompileTransactionError`
wrapping the compiler's error, and every error `execute_transaction`
returns carries the discriminant of its origin (fetch, compile, or the VM
call on the prepared program). -/
theorem C3_execute_transaction_error_tagging
    (env : ExecEnv) (ex : TransactionExecutor) (a : AccountId) (b : Nat)
    (n : List NoteOrigin) (s : Option ProgramAst) :
    (∀ e, ex.data_store.get_transaction_data a b n = .error e →
      TransactionExecutor.execute_transaction env ex a b n s =
        (.error (.FetchTransactionDataFailed e), ex))
  ∧ (∀ acct bh bc nt e,
      ex.data_store.get_transaction_data a b n = .ok (acct, bh, bc, nt) →
      ex.compiler.compile_transaction a nt s = .error e →
      TransactionExecutor.execute_transaction env ex a b n s =
        (.error (.CompileTransactionError e), ex))
  ∧ (∀ err, (TransactionExecutor.execute_transaction env ex a b n s).1 = .error err →
      (∃ e, err = .FetchTransactionDataFailed e ∧
        ex.data_store.get_transaction_data a b n = .error e)
      ∨ (∃ e acct bh bc nt,
          err = .CompileTransactionError e ∧
          ex.data_store.get_transaction_data a b n = .ok (acct, bh, bc, nt) ∧
          ex.compiler.compile_transaction a nt s = .error e)
      ∨ (∃ e acct bh bc nt p r,
          err = .ExecuteTransactionProgramFailed e ∧
          ex.data_store.get_transaction_data a b n = .ok (acct, bh, bc, nt) ∧
          ex.compiler.compile_transaction a nt s = .ok (p, r) ∧
          env.execute p (env.stack_inputs ⟨acct, bh, bc, nt, r, p⟩)
            (env.rec_from_inputs (env.advice_provider_inputs
              ⟨acct, bh, bc, nt, r, p⟩)) = .error e)) := by
  refine ⟨fun e he => ?_, fun acct bh bc nt e hd hc => ?_, fun err herr => ?_⟩
  · simp [TransactionExecutor.execute_transaction,
      TransactionExecutor.prepare_transaction, he]
  · simp [TransactionExecutor.execute_transaction,
      TransactionExecutor.prepare_transaction, hd, hc]
  · rcases hd : ex.data_store.get_transaction_data a b n with e | ⟨acct, bh, bc, nt⟩
    · left
      simp [TransactionExecutor.execute_transaction,
        TransactionExecutor.prepare_transaction, hd] at herr
      exact ⟨e, herr.symm, rfl⟩
    · right
      rcases hc : ex.compiler.compile_transaction a nt s with e | ⟨p, r⟩
      · left
        simp [TransactionExecutor.execute_transaction,
          TransactionExecutor.prepare_transaction, hd, hc] at herr
        exact ⟨e, acct, bh, bc, nt, herr.symm, rfl, hc⟩
      · right
        rcases hx : env.execute p (env.stack_inputs ⟨acct, bh, bc, nt, r, p⟩)
            (env.rec_from_inputs (env.advice_provider_inputs
              ⟨acct, bh, bc, nt, r, p⟩)) with e | ⟨r1, a1⟩
        · simp [TransactionExecutor.execute_transaction,
            TransactionExecutor.prepare_transaction, hd, hc, hx] at herr
          exact ⟨e, acct, bh, bc, nt, p, r, herr.symm, rfl, hc, hx⟩
        · simp [TransactionExecutor.execute_transaction,
            TransactionExecutor.prepare_transaction, hd, hc, hx] at herr

/-- Claim C3 witness: a concrete failing store and a concrete failing
compiler each make `execute_transaction` return the stage-tagged error
with the executor unchanged. -/
theorem C3_witness :
    TransactionExecutor.execute_transaction envOk exFetchFail 5 10 [] none =
      (.error (.FetchTransactionDataFailed 8), exFetchFail)
  ∧ TransactionExecutor.execute_transaction envOk exCompileFail 5 10 [] none =
      (.error (.CompileTransactionError 6), exCompileFail) :=
  ⟨(C3_execute_transaction_error_tagging envOk exFetchFail 5 10 [] none).1 8 rfl,
   (C3_execute_transaction_error_tagging envOk exCompileFail 5 10 [] none).2.1
     ⟨5, 7⟩ ⟨11⟩ 3 ⟨13⟩ 6 rfl rfl⟩

/-- Claim C4: when the store's `get_account_code` fails, `load_account`
returns `FetchAccountCodeFailed` wrapping the store's error and the
executor (in particular the compiler's cache) is unchanged: the compiler's
`load_account` is never reached. -/
theorem C4_load_account_fetch_error
    (ex : TransactionExecutor) (account_id : AccountId) (e : DataStoreError)
    (h : ex.data_store.get_account_code account_id = .error e) :
    ex.load_account account_id = (.error (.FetchAccountCodeFailed e), ex) := by
  simp [TransactionExecutor.load_account, h]

/-- Claim C4 witness: the failing fixture store. -/
theorem C4_witness :
    exFetchFail.load_account 5 = (.error (.FetchAccountCodeFailed 9), exFetchFail) :=
  C4_load_account_fetch_error exFetchFail 5 9 rfl

/-- Claim C7: `load_account_interface` returns `none` when no interface is
registered for the id, and after registering `ps` a subsequent call with
`qs` returns `some ps` and leaves `qs` registered. -/
theorem C7_load_account_interface_previous
    (ex : TransactionExecutor) (account_id : AccountId) (ps qs : List Digest) :
    (lookupInterface ex.compiler.account_procs account_id = none →
      (ex.load_account_interface account_id ps).1 = none)
  ∧ (((ex.load_account_interface account_id ps).2.load_account_interface
        account_id qs).1 = some ps)
  ∧ lookupInterface (((ex.load_account_interface account_id ps).2.load_account_interface
        account_id qs).2).compiler.account_procs account_id = some qs := by
  refine ⟨fun h => ?_, ?_, ?_⟩
  · simp [TransactionExecutor.load_account_interface,
      TransactionComplier.load_account_interface, h]
  · simp [TransactionExecutor.load_account_interface,
      TransactionComplier.load_account_interface, lookupInterface_insertInterface]
  · simp [TransactionExecutor.load_account_interface,
      TransactionComplier.load_account_interface, lookupInterface_insertInterface]

/-- Claim C7 witness: on the fresh fixture executor, the first registration
returns `none` and the second returns the first set. -/
theorem C7_witness :
    (exOk.load_account_interface 5 [1]).1 = none
  ∧ ((exOk.load_account_interface 5 [1]).2.load_account_interface 5 [2]).1 = some [1] :=
  ⟨(C7_load_account_interface_previous exOk 5 [1] [2]).1 rfl,
   (C7_load_account_interface_previous exOk 5 [1] [2]).2.1⟩

/-- Claim C8: with the (deterministic, function-valued) store and compiler
of this embedding, two successive `load_account` calls with the same id
return the same result, and the executor state after the second call equals
the state after the first. -/
theorem C8_load_account_idempotent
    (ex : TransactionExecutor) (account_id : AccountId) :
    ((ex.load_account account_id).2.load_account account_id).1 =
      (ex.load_account account_id).1
  ∧ ((ex.load_account account_id).2.load_account account_id).2 =
      (ex.load_account account_id).2 := by
  rcases hd : ex.data_store.get_account_code account_id with e | code
  · simp [TransactionExecutor.load_account, hd]
  · rcases hc : ex.compiler.backend.compile_module code with e | ac
    · simp [TransactionExecutor.load_account, TransactionComplier.load_account, hd, hc]
    · simp [TransactionExecutor.load_account, TransactionComplier.load_account, hd, hc,
        insertInterface_insertInterface]

/-- Claim C9: `compile_note_script` neither reads nor mutates the data
store: its result coincides for two executors sharing a compiler, whatever
their stores, and the executor is returned unchanged. -/
theorem C9_compile_note_script_store_frame
    (ex1 ex2 : TransactionExecutor) (hC : ex1.compiler = ex2.compiler)
    (note_script_ast : ProgramAst) (target_account_procs : List NoteTarget) :
    (ex1.compile_note_script note_script_ast target_account_procs).1 =
      (ex2.compile_note_script note_script_ast target_account_procs).1
  ∧ (ex1.compile_note_script note_script_ast target_account_procs).2 = ex1 := by
  constructor
  · simp only [TransactionExecutor.compile_note_script, hC]
    rcases ex2.compiler.compile_note_script note_script_ast target_account_procs with e | ns
    · rfl
    · rfl
  · simp only [TransactionExecutor.compile_note_script]
    rcases ex1.compiler.compile_note_script note_script_ast target_account_procs with e | ns
    · rfl
    · rfl

/-- Claim C9 witness: the fixture executor and its variant with a failing
store agree, and the state is unchanged. -/
theorem C9_witness :
    (exOk.compile_note_script 3 []).1 = (exOkAltStore.compile_note_script 3 []).1
  ∧ (exOk.compile_note_script 3 []).2 = exOk :=
  C9_compile_note_script_store_frame exOk exOkAltStore rfl 3 []

/-- Claim C10: `load_account_interface` is total and infallible (its result
type is an `Option`, never an error), never reads the data store (two
executors sharing a compiler get identical results and identical resulting
compilers), and never writes it (the store component is unchanged). -/
theorem C10_load_account_interface_total_frame
    (ex1 ex2 : TransactionExecutor) (hC : ex1.compiler = ex2.compiler)
    (account_id : AccountId) (procedures : List Digest) :
    (ex1.load_account_interface account_id procedures).1 =
      (ex2.load_account_interface account_id procedures).1
  ∧ (ex1.load_account_interface account_id procedures).2.compiler =
      (ex2.load_account_interface account_id procedures).2.compiler
  ∧ (ex1.load_account_interface account_id procedures).2.data_store =
      ex1.data_store := by
  refine ⟨?_, ?_, ?_⟩ <;>
    simp [TransactionExecutor.load_account_interface,
      TransactionComplier.load_account_interface, hC]

/-- Claim C10 witness: concrete executors with distinct stores, on an
account id never loaded before. -/
theorem C10_witness :
    (exOk.load_account_interface 99 [4]).1 = (exOkAltStore.load_account_interface 99 [4]).1
  ∧ (exOk.load_account_interface 99 [4]).2.data_store = exOk.data_store :=
  ⟨(C10_load_account_interface_total_frame exOk exOkAltStore rfl 99 [4]).1,
   (C10_load_account_interface_total_frame exOk exOkAltStore rfl 99 [4]).2.2⟩

/-- Claim C1 counterexample: with a data store that returns an account
whose id differs from the requested one, fetch, compilation and VM
execution all succeed, yet the returned witness carries the fetched
account's id (6), not the input account id (5); so the claim's "account id
equal to the input account id" is false as stated. -/
theorem C1_counterexample :
    (TransactionExecutor.execute_transaction envOk exShifted 5 10 [] none).1 =
      .ok ⟨6, 7, 11, 13, 5, 42, 86⟩
  ∧ (6 : AccountId) ≠ 5 :=
  ⟨rfl, by decide⟩

/-- Claim C1 (amended): when preparation and VM execution succeed, the
returned witness consists exactly of the fetched account's id, the fetched
account's pre-execution hash, the fetched block header's hash, the consumed
notes' commitment, the transaction-script root, the executed program, and
the advice proof extracted from the recorder the VM left behind. -/
theorem C1_execute_transaction_success_fields
    (env : ExecEnv) (ex : TransactionExecutor) (a : AccountId) (b : Nat)
    (n : List NoteOrigin) (s : Option ProgramAst) (t : PreparedTransaction)
    (r : ExecutionResult) (ar1 : RecAdviceProvider)
    (hp : (ex.prepare_transaction a b n s).1 = .ok t)
    (he : env.execute t.tx_program (env.stack_inputs t)
            (env.rec_from_inputs (env.advice_provider_inputs t)) = .ok (r, ar1)) :
    (TransactionExecutor.execute_transaction env ex a b n s).1 =
      .ok ⟨t.account.id, t.account.hash, t.block_header.hash,
           t.consumed_notes.commitment, t.tx_script_root, t.tx_program,
           env.into_proof ar1⟩ := by
  rcases hpair : ex.prepare_transaction a b n s with ⟨res, ex2⟩
  rw [hpair] at hp
  obtain rfl : res = Except.ok t := hp
  simp [TransactionExecutor.execute_transaction, hpair, he]

/-- Claim C1 witness: full success on the consistent fixture. -/
theorem C1_witness :
    (TransactionExecutor.execute_transaction envOk exOk 5 10 [] none).1 =
      .ok ⟨5, 7, 11, 13, 5, 42, 86⟩ :=
  C1_execute_transaction_success_fields envOk exOk 5 10 [] none
    ⟨⟨5, 7⟩, ⟨11⟩, 3, ⟨13⟩, 5, 42⟩ 0 43 rfl rfl

/-- Claim C2: when preparation succeeds but the VM call fails,
`execute_transaction` returns `ExecuteTransactionProgramFailed` wrapping
the VM's error, and returns no witness at all. -/
theorem C2_execute_transaction_vm_failure
    (env : ExecEnv) (ex : TransactionExecutor) (a : AccountId) (b : Nat)
    (n : List NoteOrigin) (s : Option ProgramAst) (t : PreparedTransaction)
    (e : ExecutionError)
    (hp : (ex.prepare_transaction a b n s).1 = .ok t)
    (he : env.execute t.tx_program (env.stack_inputs t)
            (env.rec_from_inputs (env.advice_provider_inputs t)) = .error e) :
    (TransactionExecutor.execute_transaction env ex a b n s).1 =
      .error (.ExecuteTransactionProgramFailed e)
  ∧ ∀ w, (TransactionExecutor.execute_transaction env ex a b n s).1 ≠ .ok w := by
  rcases hpair : ex.prepare_transaction a b n s with ⟨res, ex2⟩
  rw [hpair] at hp
  obtain rfl : res = Except.ok t := hp
  constructor
  · simp [TransactionExecutor.execute_transaction, hpair, he]
  · intro w hw
    simp [TransactionExecutor.execute_transaction, hpair, he] at hw

/-- Claim C2 witness: the faulting fixture VM on the succeeding store. -/
theorem C2_witness :
    (TransactionExecutor.execute_transaction envFail exOk 5 10 [] none).1 =
      .error (.ExecuteTransactionProgramFailed 17) :=
  (C2_execute_transaction_vm_failure envFail exOk 5 10 [] none
    ⟨⟨5, 7⟩, ⟨11⟩, 3, ⟨13⟩, 5, 42⟩ 17 rfl rfl).1

/-- Claim C5: `execute_transaction` is staged strictly in sequence.  The
instrumented copy agrees with `execute_transaction`, and its event trace is
exactly the staged sequence cut at the first failing stage: fetch only when
the fetch fails; fetch then compile when compilation fails; fetch, compile,
fresh-recorder construction from the prepared transaction's advice inputs,
then the VM call when the VM faults; and all of those followed by a single
proof finalization on success.  A later stage therefore runs only when
every earlier stage succeeded, and the recorder is created fresh within the
call and finalized exactly once. -/
theorem C5_execute_transaction_staged
    (env : ExecEnv) (ex : TransactionExecutor) (a : AccountId) (b : Nat)
    (n : List NoteOrigin) (s : Option ProgramAst) :
    (TransactionExecutor.execute_transaction_trace env ex a b n s).1 =
      TransactionExecutor.execute_transaction env ex a b n s
  ∧ (∀ e, ex.data_store.get_transaction_data a b n = .error e →
      (TransactionExecutor.execute_transaction_trace env ex a b n s).2 =
        [.fetchData a b n])
  ∧ (∀ acct bh bc nt,
      ex.data_store.get_transaction_data a b n = .ok (acct, bh, bc, nt) →
      (∀ e, ex.compiler.compile_transaction a nt s = .error e →
        (TransactionExecutor.execute_transaction_trace env ex a b n s).2 =
          [.fetchData a b n, .compileTx a])
      ∧ (∀ p r, ex.compiler.compile_transaction a nt s = .ok (p, r) →
          (∀ e, env.execute p (env.stack_inputs ⟨acct, bh, bc, nt, r, p⟩)
                  (env.rec_from_inputs (env.advice_provider_inputs
                    ⟨acct, bh, bc, nt, r, p⟩)) = .error e →
            (TransactionExecutor.execute_transaction_trace env ex a b n s).2 =
              [.fetchData a b n, .compileTx a,
               .mkRecorder (env.advice_provider_inputs ⟨acct, bh, bc, nt, r, p⟩),
               .vmExecute p])
          ∧ (∀ out, env.execute p (env.stack_inputs ⟨acct, bh, bc, nt, r, p⟩)
                      (env.rec_from_inputs (env.advice_provider_inputs
                        ⟨acct, bh, bc, nt, r, p⟩)) = .ok out →
            (TransactionExecutor.execute_transaction_trace env ex a b n s).2 =
              [.fetchData a b n, .compileTx a,
               .mkRecorder (env.advice_provider_inputs ⟨acct, bh, bc, nt, r, p⟩),
               .vmExecute p, .finalizeProof]))) := by
  refine ⟨?_, fun e he => ?_, fun acct bh bc nt hd => ⟨fun e hc => ?_, fun p r hc => ⟨fun e hx => ?_, fun out hx => ?_⟩⟩⟩
  · rcases hd : ex.data_store.get_transaction_data a b n with e | ⟨acct, bh, bc, nt⟩
    · simp [TransactionExecutor.execute_transaction_trace,
        TransactionExecutor.execute_transaction,
        TransactionExecutor.prepare_transaction, hd]
    · rcases hc : ex.compiler.compile_transaction a nt s with e | ⟨p, r⟩
      · simp [TransactionExecutor.execute_transaction_trace,
          TransactionExecutor.execute_transaction,
          TransactionExecutor.prepare_transaction, hd, hc]
      · rcases hx : env.execute p (env.stack_inputs ⟨acct, bh, bc, nt, r, p⟩)
            (env.rec_from_inputs (env.advice_provider_inputs
              ⟨acct, bh, bc, nt, r, p⟩)) with e | ⟨r1, a1⟩
        · simp [TransactionExecutor.execute_transaction_trace,
            TransactionExecutor.execute_transaction,
            TransactionExecutor.prepare_transaction, hd, hc, hx]
        · simp [TransactionExecutor.execute_transaction_trace,
            TransactionExecutor.execute_transaction,
            TransactionExecutor.prepare_transaction, hd, hc, hx]
  · simp [TransactionExecutor.execute_transaction_trace, he]
  · simp [TransactionExecutor.execute_transaction_trace, hd, hc]
  · simp [TransactionExecutor.execute_transaction_trace, hd, hc, hx]
  · obtain ⟨r1, a1⟩ := out
    simp [TransactionExecutor.execute_transaction_trace, hd, hc, hx]

/-- Claim C5 witness: on the all-success fixture, the trace is the full
five-event staged sequence. -/
theorem C5_witness :
    (TransactionExecutor.execute_transaction_trace envOk exOk 5 10 [] none).2 =
      [.fetchData 5 10 [], .compileTx 5, .mkRecorder 42, .vmExecute 42,
       .finalizeProof] :=
  ((((C5_execute_transaction_staged envOk exOk 5 10 [] none).2.2
    ⟨5, 7⟩ ⟨11⟩ 3 ⟨13⟩ rfl).2 42 5 rfl).2 (0, 43) rfl)

/-- Claim C6: the returned witness does not depend on the VM's direct
`ExecutionResult`.  Two environments that share the advice/stack-input
derivations, recorder construction and finalization, and whose VM calls,
whenever both succeed, leave identical advice recordings, yield identical
witnesses on success, whatever their direct results. -/
theorem C6_witness_oblivious_to_execution_result
    (env1 env2 : ExecEnv) (ex : TransactionExecutor) (a : AccountId) (b : Nat)
    (n : List NoteOrigin) (s : Option ProgramAst)
    (hA : env1.advice_provider_inputs = env2.advice_provider_inputs)
    (hS : env1.stack_inputs = env2.stack_inputs)
    (hR : env1.rec_from_inputs = env2.rec_from_inputs)
    (hP : env1.into_proof = env2.into_proof)
    (hE : ∀ p st ar x y, env1.execute p st ar = .ok x →
            env2.execute p st ar = .ok y → x.2 = y.2)
    (w1 w2 : TransactionWitness)
    (h1 : (TransactionExecutor.execute_transaction env1 ex a b n s).1 = .ok w1)
    (h2 : (TransactionExecutor.execute_transaction env2 ex a b n s).1 = .ok w2) :
    w1 = w2 := by
  rcases hpair : ex.prepare_transaction a b n s with ⟨res, ex2⟩
  cases res with
  | error e => simp [TransactionExecutor.execute_transaction, hpair] at h1
  | ok t =>
    rcases hx1 : env1.execute t.tx_program (env1.stack_inputs t)
        (env1.rec_from_inputs (env1.advice_provider_inputs t)) with e1 | ⟨r1, a1⟩
    · simp [TransactionExecutor.execute_transaction, hpair, hx1] at h1
    · rcases hx2 : env2.execute t.tx_program (env2.stack_inputs t)
          (env2.rec_from_inputs (env2.advice_provider_inputs t)) with e2 | ⟨r2, a2⟩
      · simp [TransactionExecutor.execute_transaction, hpair, hx2] at h2
      · simp [TransactionExecutor.execute_transaction, hpair, hx1] at h1
        simp [TransactionExecutor.execute_transaction, hpair, hx2] at h2
        have hx2' : env2.execute t.tx_program (env1.stack_inputs t)
            (env1.rec_from_inputs (env1.advice_provider_inputs t)) = .ok (r2, a2) := by
          rw [hS, hR, hA]
          exact hx2
        have hsnd : a1 = a2 := hE _ _ _ (r1, a1) (r2, a2) hx1 hx2'
        rw [← h1, ← h2, hsnd, hP]

/-- Claim C6 witness: `envOk` and `envOk2` differ only in the VM's direct
result (0 versus 1) and record identically; both runs return the same
witness. -/
theorem C6_witness :
    (⟨5, 7, 11, 13, 5, 42, 86⟩ : TransactionWitness) = ⟨5, 7, 11, 13, 5, 42, 86⟩ :=
  C6_witness_oblivious_to_execution_result envOk envOk2 exOk 5 10 [] none
    rfl rfl rfl rfl
    (fun p st ar x y hx hy => by
      injection hx with hx1
      injection hy with hy1
      rw [← hx1, ← hy1])
    ⟨5, 7, 11, 13, 5, 42, 86⟩ ⟨5, 7, 11, 13, 5, 42, 86⟩ rfl rfl

end MidenTx
